import Mathlib

/-!
Verification of the outfit-generator client core: the quota-aware retrying
remote caller, the tiered caching scheme, and the generation-orchestrator
hook (`useOutfitGeneration`) with its in-flight guard and rate-limiter
sequencing.

The definitions below are a shallow embedding of the TypeScript source
(`services/outfitGenerator.ts`, `hooks/useOutfitGeneration.ts`,
`lib/supabase.ts`).  External collaborators (the remote generation API,
blob storage, the relational store, the local image composer, the rate
limiter's decision) are modelled as oracles carried in an `Env` record;
the orchestrator's own control flow, state updates and cache writes are
translated branch by branch from the source.  JavaScript truthiness of
the probed fields (`||` chains, `if (x)` on strings) is modelled
explicitly: `0` and `""` count as falsy.
-/

set_option maxRecDepth 4096

/-- One entry of `err.error.details` as probed by `getRetryMsFromError`:
the `@type` tag and the `retryDelay` duration string. -/
structure RetryDetail where
  atType : Option String
  retryDelay : Option String
deriving DecidableEq, Repr

/-- The untyped remote error object, restricted to the fields the source
probes.  `json` stands for the `JSON.stringify(err)` text used when
`err.message` is not a string: the serialisation of fields we do not
model is data of the error itself. -/
structure RemoteError where
  errorCode : Option Nat
  status : Option Nat
  code : Option Nat
  errorStatus : Option String
  statusMessage : Option String
  details : List RetryDetail
  message : Option String
  json : String
deriving DecidableEq, Repr

/-- JavaScript `a || b` on optional numbers: `undefined` and `0` are falsy. -/
def jsOrNat (a b : Option Nat) : Option Nat :=
  match a with
  | some n => if n = 0 then b else some n
  | none => b

/-- JavaScript `a || b` on optional strings: `undefined` and `""` are falsy. -/
def jsOrStr (a b : Option String) : Option String :=
  match a with
  | some s => if s = "" then b else some s
  | none => b

/-- JavaScript truthiness of an optional string. -/
def jsTruthyS : Option String → Bool
  | some s => s != ""
  | none => false

/-- `isQuotaError` from the source: numeric code `429` (probing
`err.error.code || err.status || err.code`) or status marker
`"RESOURCE_EXHAUSTED"` (probing `err.error.status || err.statusMessage`). -/
def isQuotaError (e : RemoteError) : Bool :=
  let code := jsOrNat e.errorCode (jsOrNat e.status e.code)
  if code = some 429 then true
  else jsOrStr e.errorStatus e.statusMessage = some "RESOURCE_EXHAUSTED"

/-- Digits-to-number accumulator, as `parseInt` on an all-digit string. -/
def digitsToNat (cs : List Char) : Nat :=
  cs.foldl (fun n c => n * 10 + (c.toNat - 48)) 0

/-- The regex `^(\d+)(?:\.(\d+))?s$` of `getRetryMsFromError`, returning
`seconds * 1000 + fractional-part-in-ms`.  The fractional digits are
truncated to three and right-padded with `0` (`m[2].slice(0,3).padEnd(3,"0")`). -/
def parseRetryDelay (s : String) : Option Nat :=
  let cs := s.toList
  let intPart := cs.takeWhile Char.isDigit
  let rest := cs.dropWhile Char.isDigit
  if intPart = [] then none
  else
    match rest with
    | ['s'] => some (digitsToNat intPart * 1000)
    | '.' :: rest2 =>
      let frac := rest2.takeWhile Char.isDigit
      let rest3 := rest2.dropWhile Char.isDigit
      if frac = [] then none
      else
        match rest3 with
        | ['s'] =>
          let padded := (frac.take 3) ++ List.replicate (3 - (frac.take 3).length) '0'
          some (digitsToNat intPart * 1000 + digitsToNat padded)
        | _ => none
    | _ => none

/-- Substring containment on character lists, as JavaScript `includes`. -/
def containsSub (hay needle : List Char) : Bool :=
  if needle.isPrefixOf hay then true
  else
    match hay with
    | [] => false
    | _ :: t => containsSub t needle

/-- The predicate of `details.find(d => d["@type"]?.includes("RetryInfo"))`. -/
def detailIsRetryInfo (d : RetryDetail) : Bool :=
  match d.atType with
  | some t => containsSub t.toList "RetryInfo".toList
  | none => false

/-- `getRetryMsFromError` from the source: the first `RetryInfo` detail's
`retryDelay`, parsed to milliseconds, else the fallback. -/
def getRetryMsFromError (e : RemoteError) (fallbackMs : Nat) : Nat :=
  match e.details.find? detailIsRetryInfo with
  | none => fallbackMs
  | some d =>
    match d.retryDelay with
    | none => fallbackMs
    | some s =>
      if s = "" then fallbackMs
      else
        match parseRetryDelay s with
        | some ms => ms
        | none => fallbackMs

/-- The parsed retry hint of an error, `none` when no `RetryInfo` detail
carries a parseable (truthy) `retryDelay`. -/
def findRetryDelayMs (e : RemoteError) : Option Nat :=
  (e.details.find? detailIsRetryInfo).bind fun d =>
    d.retryDelay.bind fun s =>
      if s = "" then none else parseRetryDelay s

/-- `typeof err.message === "string" ? err.message : JSON.stringify(err)`. -/
def errMsg (e : RemoteError) : String :=
  match e.message with
  | some m => m
  | none => e.json

/-- One content part of the remote response (`inlineData.data` and `text`). -/
structure ContentPart where
  inlineData : Option String
  text : Option String
deriving DecidableEq, Repr

/-- One candidate of the remote response. -/
structure Candidate where
  parts : List ContentPart
deriving DecidableEq, Repr

/-- The remote generation response. -/
structure Response where
  candidates : List Candidate
deriving DecidableEq, Repr

/-- `resp.candidates?.[0]?.content?.parts || []`. -/
def respParts (r : Response) : List ContentPart :=
  match r.candidates.head? with
  | some c => c.parts
  | none => []

/-- `parts.find(p => p.inlineData?.data)`: the data field is truthy. -/
def partHasData (p : ContentPart) : Bool :=
  match p.inlineData with
  | some d => d != ""
  | none => false

/-- Outcome of one invocation of `genAI.models.generateContent`. -/
inductive CallOutcome where
  | success (resp : Response)
  | failure (err : RemoteError)

/-- Result of the retry loop: the response or the surfaced error message,
together with the number of calls performed and the waits (ms) slept
before each retry. -/
inductive RetryOutcome where
  | ok (resp : Response) (attempts : Nat) (waits : List Nat)
  | fail (msg : String) (attempts : Nat) (waits : List Nat)
deriving DecidableEq, Repr

def RetryOutcome.attempts : RetryOutcome → Nat
  | .ok _ n _ => n
  | .fail _ n _ => n

def RetryOutcome.waits : RetryOutcome → List Nat
  | .ok _ _ w => w
  | .fail _ _ w => w

/-- `maxAttempts` of the retry loops (3 total attempts). -/
def maxAttempts : Nat := 3

/-- One step of the `while (true)` retry loop shared (textually identical)
by the three generator internals.  `attempt` is the counter of the source;
the i-th executed call is indexed by the current `attempt` value.  On a
quota failure that still has retry budget, the wait is
`round(base * 2 ** (attempt - 1))` computed after `attempt += 1`, i.e.
`base * 2 ^ attempt` for the pre-increment value; the product of naturals
makes `Math.round` the identity. -/
def retryStep (call : Nat → CallOutcome) : Nat → Nat → List Nat → RetryOutcome
  | attempt, 0, acc => .fail "" attempt acc
  | attempt, fuel + 1, acc =>
    match call attempt with
    | .success r => .ok r (attempt + 1) acc
    | .failure e =>
      if isQuotaError e = false ∨ attempt ≥ maxAttempts - 1 then
        .fail ("Gemini API error. " ++ errMsg e) (attempt + 1) acc
      else
        retryStep call (attempt + 1) fuel (acc ++ [getRetryMsFromError e 20000 * 2 ^ attempt])

/-- The full retry loop around the remote call. -/
def runRetryLoop (call : Nat → CallOutcome) : RetryOutcome :=
  retryStep call 0 maxAttempts []

/-- `OutfitGenerationResult` from `src/types` (also the shape returned by
`imageComposer.createComposite`). -/
structure OutfitGenerationResult where
  success : Bool
  imageUrl : Option String
  error : Option String
deriving DecidableEq, Repr

/-- Observable side effects of one orchestrator call, in program order. -/
inductive Event where
  | rateCheck
  | recordCall
  | remoteAttempt
  | durableLookup
  | blobUpload
  | dbWrite
  | createObjectUrl
  | revokeObjectUrl
  | compositeAttempt
deriving DecidableEq, Repr

/-- Number of occurrences of an event in a trace. -/
def countEvent (e : Event) : List Event → Nat
  | [] => 0
  | x :: t => (if x = e then 1 else 0) + countEvent e t

/-- The trace prefix strictly before the first `recordCall`. -/
def beforeRecord : List Event → List Event
  | [] => []
  | x :: t => if x = Event.recordCall then [] else x :: beforeRecord t

/-- First-match association-list lookup, modelling `Map.get` with
`Map.set` modelled as prepending. -/
def lookupA {α : Type} (k : String) : List (String × α) → Option α
  | [] => none
  | (k2, v) :: t => if k2 = k then some v else lookupA k t

/-- The module-level in-memory caches (`window.__outfitCache`,
`window.__nanoCache`, `window.__transferCache`). -/
structure GenState where
  outfitCache : List (String × String)
  nanoCache : List (String × String)
  transferCache : List (String × String)
deriving DecidableEq, Repr

def initGenState : GenState := ⟨[], [], []⟩

/-- `RateLimitResult` as consumed by the hook (`canMakeCall` decision). -/
structure RateLimitResult where
  allowed : Bool
  reason : Option String
  waitTime : Option Nat
deriving DecidableEq, Repr

/-- The environment of one orchestrator call: configuration plus the
external collaborators, as oracles.  `remote n` is the outcome of the
(n+1)-th invocation of `genAI.models.generateContent` within the call;
`rate` is the `rateLimiter.canMakeCall()` decision; `objectUrl` is the
URL `URL.createObjectURL` mints; `now` is `Date.now()`. -/
structure Env where
  apiKey : Bool
  fetchB64 : String → Except String String
  remote : Nat → CallOutcome
  getCachedComposite : String → String → Option String
  uploadImage : String → String → Except String String
  saveCachedComposite : String → String → String → Except String Unit
  saveGeneratedOutfit : String → String → Except String Unit
  createComposite : String → String → OutfitGenerationResult
  rate : RateLimitResult
  objectUrl : String
  now : Nat

/-- An apostrophe, kept out of string literals. -/
def apos : String := (Char.ofNat 39).toString

def MODEL : String := "gemini-2.5-flash-image-preview"

def DEFAULT_BODY_PATH : String := "/assets/model.png"

def CACHE_PREFIX : String := "outfit_"

/-- `buildPrompt()` of the paired-selection mode. -/
def buildPrompt : String :=
  "Create a new image by combining the elements from the provided images. Take the top clothing item from image 1 and the bottom clothing item from image 2, and place them naturally onto the body in image 3 so it looks like the person is wearing the selected outfit. Fit to body shape and pose, preserve garment proportions and textures, match lighting and shadows, handle occlusion by hair and arms. CRITICAL: The background must be completely white (#FFFFFF) - do not use black, transparent, or any other background color. Replace any existing background with solid white. Do not change the person identity or add accessories."

/-- The fixed `transferPrompt` of `generateOutfitTransferInternal`. -/
def transferPrompt : String :=
  "Using the provided images, place the outfit from image 2 onto the person in image 1. Keep the face, body shape, and background of image 1 completely unchanged. Ensure the outfit integrates naturally with the model" ++ apos ++ "s body shape, pose, and lighting. CRITICAL: The background must be completely white (#FFFFFF) - do not use black, transparent, or any other background color. Do not change the person identity or add accessories."

/-- The text before the occasion in the nano custom prompt. -/
def nanoPromptHead : String :=
  "Using the provided image of a model, please add an outfit to the model that would work in this occasion: "

/-- The text after the occasion in the nano custom prompt. -/
def nanoPromptTail : String :=
  ". Ensure the outfit integrates naturally with the model" ++ apos ++ "s body shape, pose, and lighting. Keep the background plain white so the focus stays on the model and the outfit."

/-- The `customPrompt` built by `OutfitGenerator.generateNanoOutfit`. -/
def nanoCustomPrompt (occasion : String) : String :=
  nanoPromptHead ++ occasion ++ nanoPromptTail

/-- `cacheKeyFor` of the paired-selection internal. -/
def cacheKeyFor (topPath bottomPath bodyPath prompt : String) : String :=
  CACHE_PREFIX ++ MODEL ++ "|" ++ topPath ++ "|" ++ bottomPath ++ "|" ++ bodyPath ++
    "|v1:" ++ toString prompt.length

/-- The in-memory cache key of `generateNanoOutfitInternal`. -/
def nanoKey (bodyPath customPrompt : String) : String :=
  "nano_" ++ MODEL ++ "|" ++ bodyPath ++ "|v1:" ++ toString customPrompt.length

/-- The in-memory cache key of `generateOutfitTransferInternal`. -/
def transferKey (inspirationImagePath bodyPath : String) : String :=
  "transfer_" ++ MODEL ++ "|" ++ inspirationImagePath ++ "|" ++ bodyPath ++
    "|v1:" ++ toString transferPrompt.length

/-- The fail-fast result when `VITE_GOOGLE_API_KEY` is absent. -/
def apiKeyMissingResult : OutfitGenerationResult :=
  ⟨false, none, some "Set VITE_GOOGLE_API_KEY and enable billing for image generation."⟩

/-- The `NoImageReturned` result: text parts joined, else a fixed message. -/
def noImageResult (r : Response) : OutfitGenerationResult :=
  let texts := (respParts r).filterMap fun p =>
    p.text.bind fun t => if t = "" then none else some t
  let msg := if texts.isEmpty then "No image data returned" else String.intercalate "\n" texts
  ⟨false, none, some ("Gemini did not return an image. " ++ msg)⟩

/-- `if (topId && bottomId)`: both identifiers present and truthy. -/
def idsOf (topId bottomId : Option String) : Option (String × String) :=
  match topId, bottomId with
  | some t, some b => if t ≠ "" ∧ b ≠ "" then some (t, b) else none
  | _, _ => none

/-- The `try { uploadImage; saveCachedComposite; return storageUrl } catch
{ return dataUrl }` block of the paired-selection internal (both at the
memory-cache hit and after a fresh generation). -/
def trySaveComposite (env : Env) (t b dataUrl : String) :
    OutfitGenerationResult × List Event :=
  let fname := "outfit_" ++ t ++ "_" ++ b ++ "_" ++ toString env.now ++ ".png"
  match env.uploadImage fname dataUrl with
  | .error _ => (⟨true, some dataUrl, none⟩, [Event.blobUpload])
  | .ok storageUrl =>
    match env.saveCachedComposite t b storageUrl with
    | .error _ => (⟨true, some dataUrl, none⟩, [Event.blobUpload, Event.dbWrite])
    | .ok _ => (⟨true, some storageUrl, none⟩, [Event.blobUpload, Event.dbWrite])

/-- `generateOutfitInternal` from the durable-lookup miss onwards: memory
cache, reference fetches, retry loop, image extraction, persistence.
`Except.error` models a thrown exception escaping the internal (a failed
reference fetch). -/
def selectAfterDurable (env : Env) (st : GenState)
    (topPath bottomPath bodyPath : String) (ids : Option (String × String))
    (evs0 : List Event) :
    GenState × Except String OutfitGenerationResult × List Event :=
  let key := cacheKeyFor topPath bottomPath bodyPath buildPrompt
  match lookupA key st.outfitCache with
  | some dataUrl =>
    match ids with
    | some (t, b) =>
      (st, .ok (trySaveComposite env t b dataUrl).1,
       evs0 ++ (trySaveComposite env t b dataUrl).2)
    | none => (st, .ok ⟨true, some dataUrl, none⟩, evs0)
  | none =>
    match env.fetchB64 topPath with
    | .error m => (st, .error m, evs0)
    | .ok _ =>
    match env.fetchB64 bottomPath with
    | .error m => (st, .error m, evs0)
    | .ok _ =>
    match env.fetchB64 bodyPath with
    | .error m => (st, .error m, evs0)
    | .ok _ =>
    match runRetryLoop env.remote with
    | .fail msg n _ =>
      (st, .ok ⟨false, none, some msg⟩, evs0 ++ List.replicate n Event.remoteAttempt)
    | .ok r n _ =>
      let evs := evs0 ++ List.replicate n Event.remoteAttempt
      match (respParts r).find? partHasData with
      | none => (st, .ok (noImageResult r), evs)
      | some p =>
        match p.inlineData with
        | none => (st, .ok ⟨false, none, some "No image data in response"⟩, evs)
        | some d =>
          if d = "" then (st, .ok ⟨false, none, some "No image data in response"⟩, evs)
          else
            let dataUrl := "data:image/png;base64," ++ d
            let st2 := {st with outfitCache := (key, dataUrl) :: st.outfitCache}
            match ids with
            | some (t, b) =>
              (st2, .ok (trySaveComposite env t b dataUrl).1,
               evs ++ (trySaveComposite env t b dataUrl).2)
            | none => (st2, .ok ⟨true, some dataUrl, none⟩, evs)

/-- `generateOutfitInternal`: API-key guard, durable composite lookup
(`if (topId && bottomId)`, hit returned when truthy), then the shared
remote path. -/
def generateOutfitInternal (env : Env) (st : GenState)
    (topPath bottomPath bodyPath : String) (topId bottomId : Option String) :
    GenState × Except String OutfitGenerationResult × List Event :=
  if env.apiKey = false then (st, .ok apiKeyMissingResult, [])
  else
    match idsOf topId bottomId with
    | some (t, b) =>
      match env.getCachedComposite t b with
      | some url =>
        if url = "" then
          selectAfterDurable env st topPath bottomPath bodyPath (some (t, b)) [Event.durableLookup]
        else (st, .ok ⟨true, some url, none⟩, [Event.durableLookup])
      | none =>
        selectAfterDurable env st topPath bottomPath bodyPath (some (t, b)) [Event.durableLookup]
    | none => selectAfterDurable env st topPath bottomPath bodyPath none []

/-- `generateNanoOutfitInternal`: API-key guard, length-keyed memory
cache, body fetch, retry loop, image extraction.  No durable tier. -/
def generateNanoOutfitInternal (env : Env) (st : GenState)
    (bodyPath customPrompt : String) :
    GenState × Except String OutfitGenerationResult × List Event :=
  if env.apiKey = false then (st, .ok apiKeyMissingResult, [])
  else
    let key := nanoKey bodyPath customPrompt
    match lookupA key st.nanoCache with
    | some dataUrl => (st, .ok ⟨true, some dataUrl, none⟩, [])
    | none =>
      match env.fetchB64 bodyPath with
      | .error m => (st, .error m, [])
      | .ok _ =>
      match runRetryLoop env.remote with
      | .fail msg n _ =>
        (st, .ok ⟨false, none, some msg⟩, List.replicate n Event.remoteAttempt)
      | .ok r n _ =>
        let evs := List.replicate n Event.remoteAttempt
        match (respParts r).find? partHasData with
        | none => (st, .ok (noImageResult r), evs)
        | some p =>
          match p.inlineData with
          | none => (st, .ok ⟨false, none, some "No image data in response"⟩, evs)
          | some d =>
            if d = "" then (st, .ok ⟨false, none, some "No image data in response"⟩, evs)
            else
              let dataUrl := "data:image/png;base64," ++ d
              ({st with nanoCache := (key, dataUrl) :: st.nanoCache},
               .ok ⟨true, some dataUrl, none⟩, evs)

/-- `generateOutfitTransferInternal`: API-key guard, memory cache keyed on
the inspiration path, body and inspiration fetches, retry loop, image
extraction.  No durable tier. -/
def generateOutfitTransferInternal (env : Env) (st : GenState)
    (inspirationImagePath bodyPath : String) :
    GenState × Except String OutfitGenerationResult × List Event :=
  if env.apiKey = false then (st, .ok apiKeyMissingResult, [])
  else
    let key := transferKey inspirationImagePath bodyPath
    match lookupA key st.transferCache with
    | some dataUrl => (st, .ok ⟨true, some dataUrl, none⟩, [])
    | none =>
      match env.fetchB64 bodyPath with
      | .error m => (st, .error m, [])
      | .ok _ =>
      match env.fetchB64 inspirationImagePath with
      | .error m => (st, .error m, [])
      | .ok _ =>
      match runRetryLoop env.remote with
      | .fail msg n _ =>
        (st, .ok ⟨false, none, some msg⟩, List.replicate n Event.remoteAttempt)
      | .ok r n _ =>
        let evs := List.replicate n Event.remoteAttempt
        match (respParts r).find? partHasData with
        | none => (st, .ok (noImageResult r), evs)
        | some p =>
          match p.inlineData with
          | none => (st, .ok ⟨false, none, some "No image data in response"⟩, evs)
          | some d =>
            if d = "" then (st, .ok ⟨false, none, some "No image data in response"⟩, evs)
            else
              let dataUrl := "data:image/png;base64," ++ d
              ({st with transferCache := (key, dataUrl) :: st.transferCache},
               .ok ⟨true, some dataUrl, none⟩, evs)

/-- A clothing item as consumed by the hook (`top.id`, `top.imageUrl`). -/
structure ClothingItem where
  id : String
  imageUrl : String
deriving DecidableEq, Repr

/-- The inspiration file of the transfer mode (`name`/`size` fingerprint). -/
structure FileInfo where
  name : String
  size : Nat
deriving DecidableEq, Repr

/-- An entry of the hook's session cache (`cacheRef`). -/
structure CacheEntry where
  url : String
  isComposite : Bool
deriving DecidableEq, Repr

/-- The state owned by `useOutfitGeneration`: React state, the synchronous
in-flight flag, the session cache, the abstract rate-limiter history
(`recordedCalls` counts `rateLimiter.recordCall()` invocations) and the
generator module's caches. -/
structure HookState where
  generatedImage : Option String
  isGenerating : Bool
  error : Option String
  isComposite : Bool
  inFlight : Bool
  cache : List (String × CacheEntry)
  recordedCalls : Nat
  gen : GenState
deriving DecidableEq, Repr

def initHookState : HookState :=
  ⟨none, false, none, false, false, [], 0, initGenState⟩

/-- The hook's session cache key for the paired-selection mode. -/
def outfitHookKey (top bottom : ClothingItem) : String :=
  "outfit::" ++ top.id ++ "::" ++ bottom.id

/-- The hook's session cache key for the nano mode. -/
def nanoHookKey (occasion : String) : String :=
  "nano::" ++ occasion

/-- The hook's session cache key for the transfer mode. -/
def transferHookKey (f : FileInfo) : String :=
  "transfer::" ++ f.name ++ "::" ++ toString f.size

/-- `String.startsWith`, phrased over the character lists so that it
evaluates by kernel reduction. -/
def strStartsWith (s p : String) : Bool :=
  p.toList.isPrefixOf s.toList

/-- State after the hook's `catch` block: generic failure message, null
image, composite flag cleared. -/
def catchFailState (s : HookState) (msg : String) : HookState :=
  {s with error := some msg, generatedImage := none, isComposite := false}

namespace Hook

/-- The hook's `generateOutfit(top, bottom)` callback: in-flight guard,
session-cache check, rate-limiter check, `recordCall`, AI generation via
`generateOutfitInternal`, composite fallback on AI failure, `finally`. -/
def generateOutfit (env : Env) (s : HookState) (top bottom : ClothingItem) :
    HookState × List Event :=
  if s.inFlight then (s, [])
  else
    let s1 := {s with inFlight := true}
    let key := outfitHookKey top bottom
    match lookupA key s1.cache with
    | some cached =>
      ({s1 with generatedImage := some cached.url, isComposite := cached.isComposite,
                error := none, inFlight := false}, [])
    | none =>
      if env.rate.allowed = false then
        ({s1 with error := some (env.rate.reason.getD "Rate limit exceeded"),
                  generatedImage := none, isComposite := false, inFlight := false},
         [Event.rateCheck])
      else
        let s2 := {s1 with isGenerating := true, error := none, isComposite := false,
                           recordedCalls := s1.recordedCalls + 1}
        let t := generateOutfitInternal env s2.gen top.imageUrl bottom.imageUrl
          DEFAULT_BODY_PATH (some top.id) (some bottom.id)
        let s3 := {s2 with gen := t.1}
        let step : HookState × List Event :=
          match t.2.1 with
          | .error _ =>
            (catchFailState s3 "Failed to generate outfit. Please try again.", [])
          | .ok r =>
            if r.success && jsTruthyS r.imageUrl then
              ({s3 with generatedImage := some (r.imageUrl.getD ""), isComposite := false,
                        cache := (key, ⟨r.imageUrl.getD "", false⟩) :: s3.cache}, [])
            else
              if (env.createComposite top.imageUrl bottom.imageUrl).success &&
                  jsTruthyS (env.createComposite top.imageUrl bottom.imageUrl).imageUrl then
                ({s3 with
                    generatedImage :=
                      some ((env.createComposite top.imageUrl bottom.imageUrl).imageUrl.getD ""),
                    isComposite := true,
                    error := some "Using composite image (AI generation unavailable)",
                    cache := (key,
                      ⟨(env.createComposite top.imageUrl bottom.imageUrl).imageUrl.getD "",
                       true⟩) :: s3.cache},
                 [Event.compositeAttempt])
              else
                (catchFailState s3 "Failed to generate outfit. Please try again.",
                 [Event.compositeAttempt])
        ({step.1 with isGenerating := false, inFlight := false},
         Event.rateCheck :: Event.recordCall :: (t.2.2 ++ step.2))

/-- The `result.success && result.imageUrl` branch shared by the nano and
transfer hook callbacks: upload the data URL if needed, write the
generation record, publish and cache the final URL; any persistence
failure escapes to the catch state. -/
def persistAndPublish (env : Env) (s3 : HookState) (key fnamePrefix source failMsg : String)
    (u : String) : HookState × List Event :=
  if strStartsWith u "data:" then
    match env.uploadImage (fnamePrefix ++ toString env.now ++ ".png") u with
    | .error _ => (catchFailState s3 failMsg, [Event.blobUpload])
    | .ok u2 =>
      match env.saveGeneratedOutfit u2 source with
      | .error _ => (catchFailState s3 failMsg, [Event.blobUpload, Event.dbWrite])
      | .ok _ =>
        ({s3 with generatedImage := some u2, isComposite := false,
                  cache := (key, ⟨u2, false⟩) :: s3.cache},
         [Event.blobUpload, Event.dbWrite])
  else
    match env.saveGeneratedOutfit u source with
    | .error _ => (catchFailState s3 failMsg, [Event.dbWrite])
    | .ok _ =>
      ({s3 with generatedImage := some u, isComposite := false,
                cache := (key, ⟨u, false⟩) :: s3.cache},
       [Event.dbWrite])

/-- The hook's `generateNanoOutfit(occasion)` callback. -/
def generateNanoOutfit (env : Env) (s : HookState) (occasion : String) :
    HookState × List Event :=
  if s.inFlight then (s, [])
  else
    let s1 := {s with inFlight := true}
    let key := nanoHookKey occasion
    match lookupA key s1.cache with
    | some cached =>
      ({s1 with generatedImage := some cached.url, isComposite := false,
                error := none, inFlight := false}, [])
    | none =>
      if env.rate.allowed = false then
        ({s1 with error := some (env.rate.reason.getD "Rate limit exceeded"),
                  generatedImage := none, isComposite := false, inFlight := false},
         [Event.rateCheck])
      else
        let s2 := {s1 with isGenerating := true, error := none, isComposite := false,
                           recordedCalls := s1.recordedCalls + 1}
        let t := generateNanoOutfitInternal env s2.gen DEFAULT_BODY_PATH
          (nanoCustomPrompt occasion)
        let s3 := {s2 with gen := t.1}
        let step : HookState × List Event :=
          match t.2.1 with
          | .error _ =>
            (catchFailState s3 "Failed to generate nano outfit. Please try again.", [])
          | .ok r =>
            if r.success && jsTruthyS r.imageUrl then
              persistAndPublish env s3 key "nano_" "nano"
                "Failed to generate nano outfit. Please try again." (r.imageUrl.getD "")
            else
              (catchFailState s3 "Failed to generate nano outfit. Please try again.", [])
        ({step.1 with isGenerating := false, inFlight := false},
         Event.rateCheck :: Event.recordCall :: (t.2.2 ++ step.2))

/-- The hook's `generateOutfitTransfer(inspirationFile)` callback,
including the creation and revocation of the temporary object URL. -/
def generateOutfitTransfer (env : Env) (s : HookState) (f : FileInfo) :
    HookState × List Event :=
  if s.inFlight then (s, [])
  else
    let s1 := {s with inFlight := true}
    let key := transferHookKey f
    match lookupA key s1.cache with
    | some cached =>
      ({s1 with generatedImage := some cached.url, isComposite := false,
                error := none, inFlight := false},
       [Event.createObjectUrl, Event.revokeObjectUrl])
    | none =>
      if env.rate.allowed = false then
        ({s1 with error := some (env.rate.reason.getD "Rate limit exceeded"),
                  generatedImage := none, isComposite := false, inFlight := false},
         [Event.createObjectUrl, Event.rateCheck, Event.revokeObjectUrl])
      else
        let s2 := {s1 with isGenerating := true, error := none, isComposite := false,
                           recordedCalls := s1.recordedCalls + 1}
        let t := generateOutfitTransferInternal env s2.gen env.objectUrl DEFAULT_BODY_PATH
        let s3 := {s2 with gen := t.1}
        let step : HookState × List Event :=
          match t.2.1 with
          | .error _ =>
            (catchFailState s3 "Failed to transfer outfit. Please try again.", [])
          | .ok r =>
            if r.success && jsTruthyS r.imageUrl then
              persistAndPublish env s3 key "transfer_" "transfer"
                "Failed to transfer outfit. Please try again." (r.imageUrl.getD "")
            else
              (catchFailState s3 "Failed to transfer outfit. Please try again.", [])
        ({step.1 with isGenerating := false, inFlight := false},
         Event.createObjectUrl :: Event.rateCheck :: Event.recordCall ::
           (t.2.2 ++ step.2) ++ [Event.revokeObjectUrl])

end Hook

/-- A generation request, one per mode. -/
inductive ModeCall where
  | select (top bottom : ClothingItem)
  | nano (occasion : String)
  | transfer (f : FileInfo)
deriving DecidableEq, Repr

/-- The logical session-cache key of a request. -/
def keyOf : ModeCall → String
  | .select t b => outfitHookKey t b
  | .nano o => nanoHookKey o
  | .transfer f => transferHookKey f

/-- Dispatch a generation request to the mode's hook callback. -/
def runMode (env : Env) (s : HookState) : ModeCall → HookState × List Event
  | .select t b => Hook.generateOutfit env s t b
  | .nano o => Hook.generateNanoOutfit env s o
  | .transfer f => Hook.generateOutfitTransfer env s f

@[simp] theorem countEvent_nil (e : Event) : countEvent e [] = 0 := rfl

@[simp] theorem countEvent_cons (e x : Event) (t : List Event) :
    countEvent e (x :: t) = (if x = e then 1 else 0) + countEvent e t := rfl

@[simp] theorem countEvent_append (e : Event) (l1 l2 : List Event) :
    countEvent e (l1 ++ l2) = countEvent e l1 + countEvent e l2 := by
  induction l1 with
  | nil => simp
  | cons x t ih => simp [ih]; omega

@[simp] theorem countEvent_replicate (e x : Event) (n : Nat) :
    countEvent e (List.replicate n x) = if x = e then n else 0 := by
  induction n with
  | zero => simp
  | succ n ih => simp [List.replicate_succ, ih]; split <;> omega
/-- Full case analysis of the retry loop over the first three call
outcomes. -/
theorem runRetryLoop_char (call : Nat → CallOutcome) :
    (∃ r, call 0 = .success r ∧ runRetryLoop call = .ok r 1 []) ∨
    (∃ e, call 0 = .failure e ∧ isQuotaError e = false ∧
      runRetryLoop call = .fail ("Gemini API error. " ++ errMsg e) 1 []) ∨
    (∃ e0, call 0 = .failure e0 ∧ isQuotaError e0 = true ∧
      ((∃ r, call 1 = .success r ∧
          runRetryLoop call = .ok r 2 [getRetryMsFromError e0 20000 * 2 ^ 0]) ∨
       (∃ e1, call 1 = .failure e1 ∧ isQuotaError e1 = false ∧
          runRetryLoop call =
            .fail ("Gemini API error. " ++ errMsg e1) 2 [getRetryMsFromError e0 20000 * 2 ^ 0]) ∨
       (∃ e1, call 1 = .failure e1 ∧ isQuotaError e1 = true ∧
         ((∃ r, call 2 = .success r ∧
             runRetryLoop call = .ok r 3
               [getRetryMsFromError e0 20000 * 2 ^ 0, getRetryMsFromError e1 20000 * 2 ^ 1]) ∨
          (∃ e2, call 2 = .failure e2 ∧
             runRetryLoop call = .fail ("Gemini API error. " ++ errMsg e2) 3
               [getRetryMsFromError e0 20000 * 2 ^ 0, getRetryMsFromError e1 20000 * 2 ^ 1]))))) := by
  rcases h0 : call 0 with r0 | e0
  · exact Or.inl ⟨r0, rfl, by simp [runRetryLoop, retryStep, h0]⟩
  · cases hq0 : isQuotaError e0 with
    | false =>
      exact Or.inr (Or.inl ⟨e0, rfl, hq0,
        by simp [runRetryLoop, retryStep, h0, hq0, maxAttempts]⟩)
    | true =>
      refine Or.inr (Or.inr ⟨e0, rfl, hq0, ?_⟩)
      rcases h1 : call 1 with r1 | e1
      · exact Or.inl ⟨r1, rfl, by simp [runRetryLoop, retryStep, h0, hq0, h1, maxAttempts]⟩
      · cases hq1 : isQuotaError e1 with
        | false =>
          exact Or.inr (Or.inl ⟨e1, rfl, hq1,
            by simp [runRetryLoop, retryStep, h0, hq0, h1, hq1, maxAttempts]⟩)
        | true =>
          refine Or.inr (Or.inr ⟨e1, rfl, hq1, ?_⟩)
          rcases h2 : call 2 with r2 | e2
          · exact Or.inl ⟨r2, rfl,
              by simp [runRetryLoop, retryStep, h0, hq0, h1, hq1, h2, maxAttempts]⟩
          · exact Or.inr ⟨e2, rfl,
              by simp [runRetryLoop, retryStep, h0, hq0, h1, hq1, h2, maxAttempts]⟩

/-- Claim C1: for every generation operation reaching the remote call
(all three internals run `runRetryLoop` on the remote oracle): a
non-quota failure of the first call is surfaced after exactly one attempt
(zero retries) carrying the original error message; quota failures are
retried up to 3 total attempts; and the wait slept before retry attempt k
(the entry at position k-1 of the wait list) is `base * 2 ^ (k-1)`, where
`base` is taken from the triggering error's structured retry hint when
present and is 20000 ms otherwise. -/
theorem retry_policy (call : Nat → CallOutcome) :
    (∀ e, call 0 = CallOutcome.failure e → isQuotaError e = false →
      runRetryLoop call = RetryOutcome.fail ("Gemini API error. " ++ errMsg e) 1 []) ∧
    (runRetryLoop call).attempts ≤ 3 ∧
    (∀ k e, call k = CallOutcome.failure e → k < (runRetryLoop call).waits.length →
      (runRetryLoop call).waits.get? k = some (getRetryMsFromError e 20000 * 2 ^ k)) := by
  rcases runRetryLoop_char call with ⟨r, h0, hrun⟩ | ⟨e0, h0, hq0, hrun⟩ |
    ⟨e0, h0, hq0, ⟨r, h1, hrun⟩ | ⟨e1, h1, hq1, hrun⟩ | ⟨e1, h1, hq1, hside⟩⟩
  · refine ⟨?_, ?_, ?_⟩
    · intro e he _; rw [h0] at he; cases he
    · rw [hrun]; simp [RetryOutcome.attempts]
    · intro k e _ hlen; rw [hrun] at hlen; simp [RetryOutcome.waits] at hlen
  · refine ⟨?_, ?_, ?_⟩
    · intro e he _
      rw [h0] at he; injection he with he; subst he; exact hrun
    · rw [hrun]; simp [RetryOutcome.attempts]
    · intro k e _ hlen; rw [hrun] at hlen; simp [RetryOutcome.waits] at hlen
  · refine ⟨?_, ?_, ?_⟩
    · intro e he hq2; rw [h0] at he; injection he with he; subst he
      rw [hq0] at hq2; cases hq2
    · rw [hrun]; simp [RetryOutcome.attempts]
    · intro k e he hlen
      rw [hrun] at hlen ⊢
      simp only [RetryOutcome.waits, List.length_cons, List.length_nil] at hlen
      match k with
      | 0 =>
        rw [h0] at he; injection he with he; subst he; rfl
      | n + 1 => omega
  · refine ⟨?_, ?_, ?_⟩
    · intro e he hq2; rw [h0] at he; injection he with he; subst he
      rw [hq0] at hq2; cases hq2
    · rw [hrun]; simp [RetryOutcome.attempts]
    · intro k e he hlen
      rw [hrun] at hlen ⊢
      simp only [RetryOutcome.waits, List.length_cons, List.length_nil] at hlen
      match k with
      | 0 =>
        rw [h0] at he; injection he with he; subst he; rfl
      | n + 1 => omega
  · rcases hside with ⟨r, h2, hrun⟩ | ⟨e2, h2, hrun⟩ <;>
    · refine ⟨?_, ?_, ?_⟩
      · intro e he hq3; rw [h0] at he; injection he with he; subst he
        rw [hq0] at hq3; cases hq3
      · rw [hrun]; simp [RetryOutcome.attempts]
      · intro k e he hlen
        rw [hrun] at hlen ⊢
        simp only [RetryOutcome.waits, List.length_cons, List.length_nil] at hlen
        match k with
        | 0 =>
          rw [h0] at he; injection he with he; subst he; rfl
        | 1 =>
          rw [h1] at he; injection he with he; subst he; rfl
        | n + 2 => omega

/-- Concrete remote errors used by the closed instances below: a
non-quota server error, a quota error with no structured hint, and a
quota error carrying a `RetryInfo` detail of `"2.5s"`. -/
def serverError : RemoteError :=
  ⟨some 500, none, none, none, none, [], some "internal failure", "serialized"⟩

def quotaNoHint : RemoteError :=
  ⟨some 429, none, none, none, none, [], some "quota exceeded", "serialized"⟩

def quotaHint25 : RemoteError :=
  ⟨some 429, none, none, none, none,
    [⟨some "type.googleapis.com/google.rpc.RetryInfo", some "2.5s"⟩],
    some "quota exceeded", "serialized"⟩

/-- Witness for C1: a non-quota first failure stops after one attempt
with the original message; quota-only failures make 3 attempts and the
first retry wait is the 20000 ms fallback. -/
theorem retry_policy_witness :
    runRetryLoop (fun _ => CallOutcome.failure serverError) =
      RetryOutcome.fail ("Gemini API error. " ++ errMsg serverError) 1 [] ∧
    (runRetryLoop (fun _ => CallOutcome.failure quotaNoHint)).attempts ≤ 3 ∧
    (runRetryLoop (fun _ => CallOutcome.failure quotaNoHint)).waits.get? 0 =
      some (getRetryMsFromError quotaNoHint 20000 * 2 ^ 0) :=
  ⟨(retry_policy (fun _ => CallOutcome.failure serverError)).1 serverError rfl (by decide),
   (retry_policy (fun _ => CallOutcome.failure quotaNoHint)).2.1,
   (retry_policy (fun _ => CallOutcome.failure quotaNoHint)).2.2 0 quotaNoHint rfl (by decide)⟩
/-- The extraction equals the parsed hint with the fallback filled in. -/
theorem getRetryMs_eq_hint (e : RemoteError) (fb : Nat) :
    getRetryMsFromError e fb = (findRetryDelayMs e).getD fb := by
  rcases hf : e.details.find? detailIsRetryInfo with _ | d
  · simp [getRetryMsFromError, findRetryDelayMs, hf]
  · rcases hd : d.retryDelay with _ | s
    · simp [getRetryMsFromError, findRetryDelayMs, hf, hd]
    · by_cases hs : s = ""
      · simp [getRetryMsFromError, findRetryDelayMs, hf, hd, hs]
      · rcases hp : parseRetryDelay s with _ | ms <;>
          simp [getRetryMsFromError, findRetryDelayMs, hf, hd, hs, hp]

/-- Claim C9: an error whose `RetryInfo` detail carries `"2.5s"` yields a
base delay of exactly 2500 ms, and any error with no parseable retry hint
yields the 20000 ms fallback (the extraction is total, hence never
throws). -/
theorem retry_hint_extraction :
    getRetryMsFromError quotaHint25 20000 = 2500 ∧
    (∀ e, findRetryDelayMs e = none → getRetryMsFromError e 20000 = 20000) := by
  refine ⟨by decide, ?_⟩
  intro e h
  rw [getRetryMs_eq_hint, h]
  rfl

/-- Witness for C9: an error with no details at all falls back to
20000 ms. -/
theorem retry_hint_extraction_witness :
    getRetryMsFromError quotaHint25 20000 = 2500 ∧
    getRetryMsFromError serverError 20000 = 20000 :=
  ⟨retry_hint_extraction.1, retry_hint_extraction.2 serverError rfl⟩

/-- Environment for a successful nano generation: remote returns image
data `IMGA`, blob upload echoes the uploaded URL, persistence succeeds. -/
def envOk : Env :=
  { apiKey := true
    fetchB64 := fun _ => .ok "BODY64"
    remote := fun _ => .success ⟨[⟨[⟨some "IMGA", none⟩]⟩]⟩
    getCachedComposite := fun _ _ => none
    uploadImage := fun _ du => .ok du
    saveCachedComposite := fun _ _ _ => .ok ()
    saveGeneratedOutfit := fun _ _ => .ok ()
    createComposite := fun _ _ => ⟨false, none, some "composer unavailable"⟩
    rate := ⟨true, none, none⟩
    objectUrl := "blob:insp"
    now := 1000 }

/-- The same environment with the remote call always failing. -/
def envNanoDead : Env :=
  { envOk with remote := fun _ => .failure serverError }

/-- Counterexample to claim C4: the generator-internal nano cache key is
derived from the built prompt's length, not the occasion text's content,
so the distinct occasions `"aa"` and `"bb"` share the internal key; in
consequence a session that generated for `"aa"` answers a later `"bb"`
request from the internal cache with the `"aa"` image and zero remote
attempts, even though the remote oracle of the second call always fails. -/
theorem nano_key_collision :
    ("aa" : String) ≠ "bb" ∧
    nanoKey DEFAULT_BODY_PATH (nanoCustomPrompt "aa") =
      nanoKey DEFAULT_BODY_PATH (nanoCustomPrompt "bb") ∧
    (runMode envNanoDead (runMode envOk initHookState (.nano "aa")).1
        (.nano "bb")).1.generatedImage = some "data:image/png;base64,IMGA" ∧
    countEvent Event.remoteAttempt
      (runMode envNanoDead (runMode envOk initHookState (.nano "aa")).1
        (.nano "bb")).2 = 0 := by
  refine ⟨by decide, by decide, by decide, by decide⟩

/-- Claim C4 as amended: the hook-tier session cache key is content
based (equal exactly for equal occasion texts), but the generator-tier
memory cache key depends only on the length of the prompt built from the
occasion (plus fixed model and body path), so any two occasions of equal
length derive the same internal key. -/
theorem nano_key_amended :
    (∀ o1 o2 : String, nanoHookKey o1 = nanoHookKey o2 ↔ o1 = o2) ∧
    (∀ o1 o2 : String, o1.length = o2.length →
      nanoKey DEFAULT_BODY_PATH (nanoCustomPrompt o1) =
        nanoKey DEFAULT_BODY_PATH (nanoCustomPrompt o2)) := by
  constructor
  · intro o1 o2
    constructor
    · intro h
      have h2 := congrArg String.data h
      simp only [nanoHookKey, String.data_append] at h2
      exact String.ext (List.append_cancel_left h2)
    · intro h; rw [h]
  · intro o1 o2 h
    have hl : (nanoCustomPrompt o1).length = (nanoCustomPrompt o2).length := by
      simp [nanoCustomPrompt, String.length_append, h]
    simp [nanoKey, hl]

/-- Witness for the amended C4 at concrete occasions. -/
theorem nano_key_amended_witness :
    (nanoHookKey "party" = nanoHookKey "beach" ↔ ("party" : String) = "beach") ∧
    nanoKey DEFAULT_BODY_PATH (nanoCustomPrompt "ab") =
      nanoKey DEFAULT_BODY_PATH (nanoCustomPrompt "cd") :=
  ⟨nano_key_amended.1 "party" "beach", nano_key_amended.2 "ab" "cd" (by decide)⟩

/-- Claim C5: the single synchronous in-flight flag guards all three
modes: a call arriving while one is in flight returns immediately with
the state (rate-limiter history, caches, React state) completely
unchanged and an empty effect trace; and a call that does start clears
the flag again on every completion path. -/
theorem in_flight_guard (m : ModeCall) (env : Env) (s : HookState) :
    (s.inFlight = true → runMode env s m = (s, [])) ∧
    (s.inFlight = false → (runMode env s m).1.inFlight = false) := by
  constructor
  · intro h
    cases m <;> simp [runMode, Hook.generateOutfit, Hook.generateNanoOutfit,
      Hook.generateOutfitTransfer, h]
  · intro h
    cases m <;>
      simp only [runMode, Hook.generateOutfit, Hook.generateNanoOutfit,
        Hook.generateOutfitTransfer, h, Bool.false_eq_true, if_false] <;>
      (repeat' split) <;> rfl

/-- Witness for C5: with the flag set the nano call is a no-op; from a
fresh state the flag is clear again after the call. -/
theorem in_flight_guard_witness :
    runMode envOk {initHookState with inFlight := true} (.nano "x") =
      ({initHookState with inFlight := true}, []) ∧
    (runMode envOk initHookState (.nano "x")).1.inFlight = false :=
  ⟨(in_flight_guard (.nano "x") envOk {initHookState with inFlight := true}).1 rfl,
   (in_flight_guard (.nano "x") envOk initHookState).2 rfl⟩
/-- Events a generator internal can emit (hook-level events are not
among them). -/
def isInternalEvent : Event → Bool
  | .durableLookup => true
  | .remoteAttempt => true
  | .blobUpload => true
  | .dbWrite => true
  | _ => false

theorem trySaveComposite_count (env : Env) (t b du : String) (e : Event)
    (he : isInternalEvent e = false) :
    countEvent e (trySaveComposite env t b du).2 = 0 := by
  simp only [trySaveComposite]
  (repeat' split) <;> cases e <;> simp_all [isInternalEvent, countEvent]

theorem selectAfterDurable_count (env : Env) (st : GenState)
    (tp bp yp : String) (ids : Option (String × String)) (evs0 : List Event)
    (e : Event) (he : isInternalEvent e = false) :
    countEvent e (selectAfterDurable env st tp bp yp ids evs0).2.2 =
      countEvent e evs0 := by
  simp only [selectAfterDurable]
  (repeat' split) <;>
    simp [countEvent_append, countEvent_replicate, trySaveComposite_count, he] <;>
    cases e <;> simp_all [isInternalEvent, countEvent]

theorem generateOutfitInternal_count (env : Env) (st : GenState)
    (tp bp yp : String) (ti bi : Option String) (e : Event)
    (he : isInternalEvent e = false) :
    countEvent e (generateOutfitInternal env st tp bp yp ti bi).2.2 = 0 := by
  simp only [generateOutfitInternal]
  (repeat' split) <;>
    simp [selectAfterDurable_count, he, countEvent] <;>
    cases e <;> simp_all [isInternalEvent]

theorem generateNanoOutfitInternal_count (env : Env) (st : GenState)
    (bp cp : String) (e : Event) (he : isInternalEvent e = false) :
    countEvent e (generateNanoOutfitInternal env st bp cp).2.2 = 0 := by
  simp only [generateNanoOutfitInternal]
  (repeat' split) <;>
    simp [countEvent, countEvent_replicate, he] <;>
    cases e <;> simp_all [isInternalEvent]

theorem generateOutfitTransferInternal_count (env : Env) (st : GenState)
    (ip bp : String) (e : Event) (he : isInternalEvent e = false) :
    countEvent e (generateOutfitTransferInternal env st ip bp).2.2 = 0 := by
  simp only [generateOutfitTransferInternal]
  (repeat' split) <;>
    simp [countEvent, countEvent_replicate, he] <;>
    cases e <;> simp_all [isInternalEvent]

theorem persistAndPublish_count (env : Env) (s3 : HookState)
    (key fp src fm u : String) (e : Event) (he : isInternalEvent e = false) :
    countEvent e (Hook.persistAndPublish env s3 key fp src fm u).2 = 0 := by
  simp only [Hook.persistAndPublish]
  (repeat' split) <;> cases e <;> simp_all [isInternalEvent, countEvent]

/-- Claim C10: in the transfer mode the object URL created for the
inspiration file is created exactly once and revoked exactly once on
every exit path of the operation (session-cache hit, rate-limit denial,
remote or persistence failure, success). -/
theorem transfer_object_url_released (env : Env) (s : HookState) (f : FileInfo)
    (hif : s.inFlight = false) :
    countEvent Event.createObjectUrl (runMode env s (.transfer f)).2 = 1 ∧
    countEvent Event.revokeObjectUrl (runMode env s (.transfer f)).2 = 1 := by
  simp only [runMode, Hook.generateOutfitTransfer, hif, Bool.false_eq_true, if_false]
  (repeat' split) <;>
    simp [countEvent, countEvent_append, generateOutfitTransferInternal_count,
      persistAndPublish_count, isInternalEvent]

/-- Witness for C10: a fresh transfer call under the happy-path
environment creates and revokes the object URL exactly once. -/
theorem transfer_object_url_released_witness :
    countEvent Event.createObjectUrl
      (runMode envOk initHookState (.transfer ⟨"insp.png", 7⟩)).2 = 1 ∧
    countEvent Event.revokeObjectUrl
      (runMode envOk initHookState (.transfer ⟨"insp.png", 7⟩)).2 = 1 :=
  transfer_object_url_released envOk initHookState ⟨"insp.png", 7⟩ rfl

theorem persistAndPublish_recordedCalls (env : Env) (s3 : HookState)
    (key fp src fm u : String) :
    (Hook.persistAndPublish env s3 key fp src fm u).1.recordedCalls =
      s3.recordedCalls := by
  simp only [Hook.persistAndPublish]
  (repeat' split) <;> simp [catchFailState]

/-- Claim C7: on a session-cache miss, a rate-limiter denial returns
immediately with the decision's reason as the visible error, a null
generated image, unchanged rate-limiter history and no recorded call or
remote attempt; an allowing decision leads to exactly one recorded call,
recorded before any remote attempt. -/
theorem rate_limiter_sequencing (m : ModeCall) (env : Env) (s : HookState)
    (hif : s.inFlight = false)
    (hmiss : lookupA (keyOf m) s.cache = none) :
    (env.rate.allowed = false →
      (runMode env s m).1.error = some (env.rate.reason.getD "Rate limit exceeded") ∧
      (runMode env s m).1.generatedImage = none ∧
      (runMode env s m).1.recordedCalls = s.recordedCalls ∧
      countEvent Event.recordCall (runMode env s m).2 = 0 ∧
      countEvent Event.remoteAttempt (runMode env s m).2 = 0) ∧
    (env.rate.allowed = true →
      (runMode env s m).1.recordedCalls = s.recordedCalls + 1 ∧
      countEvent Event.recordCall (runMode env s m).2 = 1 ∧
      countEvent Event.remoteAttempt (beforeRecord (runMode env s m).2) = 0) := by
  constructor
  · intro hr
    cases m <;>
      simp only [keyOf] at hmiss <;>
      simp [runMode, Hook.generateOutfit, Hook.generateNanoOutfit,
        Hook.generateOutfitTransfer, hif, hmiss, hr, countEvent]
  · intro hr
    cases m <;>
      simp only [keyOf] at hmiss <;>
      simp only [runMode, Hook.generateOutfit, Hook.generateNanoOutfit,
        Hook.generateOutfitTransfer, hif, hmiss, hr, Bool.false_eq_true,
        Bool.true_eq_false, if_false] <;>
      (repeat' split) <;>
      simp_all [countEvent, countEvent_append, beforeRecord,
        generateOutfitInternal_count, generateNanoOutfitInternal_count,
        generateOutfitTransferInternal_count, persistAndPublish_count,
        persistAndPublish_recordedCalls, isInternalEvent, catchFailState]

/-- Environment whose rate-limiter decision denies with a cooldown
reason. -/
def envDeny : Env :=
  { envOk with rate := ⟨false, some "Cooldown: wait before the next call", some 1500⟩ }

/-- Witness for C7: the denied nano call surfaces the decision's reason,
and the allowed nano call records exactly one call. -/
theorem rate_limiter_sequencing_witness :
    (runMode envDeny initHookState (.nano "gala")).1.error =
      some (envDeny.rate.reason.getD "Rate limit exceeded") ∧
    countEvent Event.recordCall (runMode envOk initHookState (.nano "gala")).2 = 1 :=
  ⟨((rate_limiter_sequencing (.nano "gala") envDeny initHookState rfl rfl).1 rfl).1,
   ((rate_limiter_sequencing (.nano "gala") envOk initHookState rfl rfl).2 rfl).2.1⟩

@[simp] theorem jsTruthyS_some (s : String) : jsTruthyS (some s) = (s != "") := rfl

@[simp] theorem jsTruthyS_none : jsTruthyS none = false := rfl

/-- Every completed call leaves the in-flight flag clear (helper shared
by the cache lemmas below). -/
theorem run_not_inflight (m : ModeCall) (env : Env) (s : HookState)
    (h : s.inFlight = false) : (runMode env s m).1.inFlight = false := by
  cases m <;>
    simp only [runMode, Hook.generateOutfit, Hook.generateNanoOutfit,
      Hook.generateOutfitTransfer, h, Bool.false_eq_true, if_false] <;>
    (repeat' split) <;> rfl

/-- A session-cache hit short-circuits the whole call: the cached URL is
published (with the cached composite flag in the select mode, `false` in
the others), no rate check, no recording, no remote work; only the
transfer mode still creates and revokes its object URL. -/
theorem run_cache_hit (m : ModeCall) (env : Env) (s : HookState) (e : CacheEntry)
    (hif : s.inFlight = false) (hhit : lookupA (keyOf m) s.cache = some e) :
    runMode env s m =
      ({s with generatedImage := some e.url,
               isComposite := (match m with | .select _ _ => e.isComposite | _ => false),
               error := none, inFlight := false},
       match m with
       | .transfer _ => [Event.createObjectUrl, Event.revokeObjectUrl]
       | _ => []) := by
  cases m <;> simp only [keyOf] at hhit <;>
    simp [runMode, Hook.generateOutfit, Hook.generateNanoOutfit,
      Hook.generateOutfitTransfer, hif, hhit]

/-- `persistAndPublish` either publishes some final URL (leaving the
error state untouched and caching the URL under the key) or escapes to
the catch state with the mode's failure message and a null image. -/
theorem persistAndPublish_cases (env : Env) (s3 : HookState)
    (key fp src fm u : String) :
    ((Hook.persistAndPublish env s3 key fp src fm u).1.error = s3.error ∧
     (Hook.persistAndPublish env s3 key fp src fm u).1.recordedCalls = s3.recordedCalls ∧
     ∃ v, (Hook.persistAndPublish env s3 key fp src fm u).1.generatedImage = some v ∧
       lookupA key (Hook.persistAndPublish env s3 key fp src fm u).1.cache =
         some ⟨v, false⟩) ∨
    ((Hook.persistAndPublish env s3 key fp src fm u).1.error = some fm ∧
     (Hook.persistAndPublish env s3 key fp src fm u).1.generatedImage = none) := by
  simp only [Hook.persistAndPublish]
  (repeat' split) <;> simp [catchFailState, lookupA]

/-- If a call from a quiescent state ends with no visible error and a
published image URL, then the session cache holds an entry for the
request's key whose URL is that same image. -/
theorem run_success_cached (m : ModeCall) (env : Env) (s : HookState) (u : String)
    (hif : s.inFlight = false)
    (herr : (runMode env s m).1.error = none)
    (himg : (runMode env s m).1.generatedImage = some u) :
    ∃ e : CacheEntry, lookupA (keyOf m) (runMode env s m).1.cache = some e ∧
      e.url = u := by
  cases m with
  | select top bottom =>
    rcases hlk : lookupA (outfitHookKey top bottom) s.cache with _ | cached
    · rcases hall : env.rate.allowed with _ | _
      · simp [runMode, Hook.generateOutfit, hif, hlk, hall] at herr
      · rcases hres : (generateOutfitInternal env s.gen top.imageUrl bottom.imageUrl
            DEFAULT_BODY_PATH (some top.id) (some bottom.id)).2.1 with msg | r
        · simp [runMode, Hook.generateOutfit, hif, hlk, hall, hres,
            catchFailState] at herr
        · by_cases hb : (r.success && jsTruthyS r.imageUrl) = true
          · simp only [runMode, keyOf, Hook.generateOutfit, hif, Bool.false_eq_true,
              if_false, hlk, hall, hres, hb, eq_self_iff_true, if_true] at himg ⊢
            refine ⟨⟨u, false⟩, ?_, rfl⟩
            simp_all [lookupA]
          · by_cases hc : ((env.createComposite top.imageUrl bottom.imageUrl).success &&
                jsTruthyS (env.createComposite top.imageUrl bottom.imageUrl).imageUrl) = true
            · simp [runMode, Hook.generateOutfit, hif, hlk, hall, hres, hb, hc] at herr
            · simp [runMode, Hook.generateOutfit, hif, hlk, hall, hres, hb, hc,
                catchFailState] at herr
    · simp only [runMode, keyOf, Hook.generateOutfit, hif, Bool.false_eq_true,
        if_false, hlk] at himg ⊢
      exact ⟨cached, rfl, by simpa using himg⟩
  | nano occasion =>
    rcases hlk : lookupA (nanoHookKey occasion) s.cache with _ | cached
    · rcases hall : env.rate.allowed with _ | _
      · simp [runMode, Hook.generateNanoOutfit, hif, hlk, hall] at herr
      · rcases hres : (generateNanoOutfitInternal env s.gen DEFAULT_BODY_PATH
            (nanoCustomPrompt occasion)).2.1 with msg | r
        · simp [runMode, Hook.generateNanoOutfit, hif, hlk, hall, hres,
            catchFailState] at herr
        · by_cases hb : (r.success && jsTruthyS r.imageUrl) = true
          · simp only [runMode, keyOf, Hook.generateNanoOutfit, hif, Bool.false_eq_true,
              if_false, hlk, hall, hres, hb, eq_self_iff_true, if_true] at herr himg ⊢
            rcases persistAndPublish_cases env _ (nanoHookKey occasion) "nano_" "nano"
                "Failed to generate nano outfit. Please try again." (r.imageUrl.getD "") with
              ⟨he1, _, v, hv, hcache⟩ | ⟨he1, hi1⟩
            · rw [hv] at himg
              have hvu : v = u := by simpa using himg
              subst hvu
              exact ⟨⟨v, false⟩, hcache, rfl⟩
            · rw [hi1] at himg; cases himg
          · simp [runMode, Hook.generateNanoOutfit, hif, hlk, hall, hres, hb,
              catchFailState] at herr
    · simp only [runMode, keyOf, Hook.generateNanoOutfit, hif, Bool.false_eq_true,
        if_false, hlk] at himg ⊢
      exact ⟨cached, rfl, by simpa using himg⟩
  | transfer f =>
    rcases hlk : lookupA (transferHookKey f) s.cache with _ | cached
    · rcases hall : env.rate.allowed with _ | _
      · simp [runMode, Hook.generateOutfitTransfer, hif, hlk, hall] at herr
      · rcases hres : (generateOutfitTransferInternal env s.gen env.objectUrl
            DEFAULT_BODY_PATH).2.1 with msg | r
        · simp [runMode, Hook.generateOutfitTransfer, hif, hlk, hall, hres,
            catchFailState] at herr
        · by_cases hb : (r.success && jsTruthyS r.imageUrl) = true
          · simp only [runMode, keyOf, Hook.generateOutfitTransfer, hif, Bool.false_eq_true,
              if_false, hlk, hall, hres, hb, eq_self_iff_true, if_true] at herr himg ⊢
            rcases persistAndPublish_cases env _ (transferHookKey f) "transfer_" "transfer"
                "Failed to transfer outfit. Please try again." (r.imageUrl.getD "") with
              ⟨he1, _, v, hv, hcache⟩ | ⟨he1, hi1⟩
            · rw [hv] at himg
              have hvu : v = u := by simpa using himg
              subst hvu
              exact ⟨⟨v, false⟩, hcache, rfl⟩
            · rw [hi1] at himg; cases himg
          · simp [runMode, Hook.generateOutfitTransfer, hif, hlk, hall, hres, hb,
              catchFailState] at herr
    · simp only [runMode, keyOf, Hook.generateOutfitTransfer, hif, Bool.false_eq_true,
        if_false, hlk] at himg ⊢
      exact ⟨cached, rfl, by simpa using himg⟩

/-- Claim C6: after a successful generation (no visible error, image
published), a second request with the identical logical cache key
returns the identical cached URL and involves neither the remote caller
nor the rate limiter: no remote attempt, no rate check, and the recorded
call count is unchanged. -/
theorem cache_idempotence (m : ModeCall) (env1 env2 : Env) (s : HookState) (u : String)
    (hif : s.inFlight = false)
    (herr : (runMode env1 s m).1.error = none)
    (himg : (runMode env1 s m).1.generatedImage = some u) :
    (runMode env2 (runMode env1 s m).1 m).1.generatedImage = some u ∧
    countEvent Event.remoteAttempt (runMode env2 (runMode env1 s m).1 m).2 = 0 ∧
    countEvent Event.rateCheck (runMode env2 (runMode env1 s m).1 m).2 = 0 ∧
    (runMode env2 (runMode env1 s m).1 m).1.recordedCalls =
      (runMode env1 s m).1.recordedCalls := by
  obtain ⟨e, hlk, heu⟩ := run_success_cached m env1 s u hif herr himg
  have hif1 := run_not_inflight m env1 s hif
  rw [run_cache_hit m env2 _ e hif1 hlk]
  cases m <;> simp [countEvent, heu]

/-- Witness for C6: a successful nano generation followed by an
identical request under a dead remote still returns the same URL with no
remote attempt, no rate check and an unchanged record count. -/
theorem cache_idempotence_witness :
    (runMode envNanoDead (runMode envOk initHookState (.nano "gala")).1
        (.nano "gala")).1.generatedImage = some "data:image/png;base64,IMGA" ∧
    countEvent Event.remoteAttempt
      (runMode envNanoDead (runMode envOk initHookState (.nano "gala")).1 (.nano "gala")).2 = 0 ∧
    countEvent Event.rateCheck
      (runMode envNanoDead (runMode envOk initHookState (.nano "gala")).1 (.nano "gala")).2 = 0 ∧
    (runMode envNanoDead (runMode envOk initHookState (.nano "gala")).1
        (.nano "gala")).1.recordedCalls =
      (runMode envOk initHookState (.nano "gala")).1.recordedCalls :=
  cache_idempotence (.nano "gala") envOk envNanoDead initHookState
    "data:image/png;base64,IMGA" rfl (by decide) (by decide)

/-- If a select-mode call from a quiescent state publishes an image
marked as composite, the session cache holds that URL under the pair key
with the composite flag set. -/
theorem run_composite_cached (env : Env) (s : HookState) (top bottom : ClothingItem)
    (u : String) (hif : s.inFlight = false)
    (himg : (runMode env s (.select top bottom)).1.generatedImage = some u)
    (hcomp : (runMode env s (.select top bottom)).1.isComposite = true) :
    lookupA (outfitHookKey top bottom) (runMode env s (.select top bottom)).1.cache =
      some ⟨u, true⟩ := by
  rcases hlk : lookupA (outfitHookKey top bottom) s.cache with _ | cached
  · rcases hall : env.rate.allowed with _ | _
    · simp [runMode, Hook.generateOutfit, hif, hlk, hall] at hcomp
    · rcases hres : (generateOutfitInternal env s.gen top.imageUrl bottom.imageUrl
          DEFAULT_BODY_PATH (some top.id) (some bottom.id)).2.1 with msg | r
      · simp [runMode, Hook.generateOutfit, hif, hlk, hall, hres,
          catchFailState] at hcomp
      · by_cases hb : (r.success && jsTruthyS r.imageUrl) = true
        · simp [runMode, Hook.generateOutfit, hif, hlk, hall, hres, hb] at hcomp
        · by_cases hc : ((env.createComposite top.imageUrl bottom.imageUrl).success &&
              jsTruthyS (env.createComposite top.imageUrl bottom.imageUrl).imageUrl) = true
          · simp only [runMode, Hook.generateOutfit, hif, Bool.false_eq_true, if_false,
              hlk, hall, hres, hb, hc, eq_self_iff_true, if_true] at himg ⊢
            simp_all [lookupA]
          · simp [runMode, Hook.generateOutfit, hif, hlk, hall, hres, hb, hc,
              catchFailState] at hcomp
  · simp only [runMode, Hook.generateOutfit, hif, Bool.false_eq_true, if_false,
      hlk] at himg hcomp ⊢
    have h1 : cached.url = u := by simpa using himg
    have h2 : cached.isComposite = true := by simpa using hcomp
    cases cached
    simp_all

/-- Claim C8: when the select-mode call ends up publishing a composite
image (the AI path failed and the local composite fallback succeeded),
the composite URL is stored in the session cache under the pair key with
the composite mark, and a subsequent call with the same pair returns it
with no remote attempt. -/
theorem composite_fallback_cached (env1 env2 : Env) (s : HookState)
    (top bottom : ClothingItem) (u : String) (hif : s.inFlight = false)
    (himg : (runMode env1 s (.select top bottom)).1.generatedImage = some u)
    (hcomp : (runMode env1 s (.select top bottom)).1.isComposite = true) :
    lookupA (outfitHookKey top bottom)
        (runMode env1 s (.select top bottom)).1.cache = some ⟨u, true⟩ ∧
    (runMode env2 (runMode env1 s (.select top bottom)).1
        (.select top bottom)).1.generatedImage = some u ∧
    (runMode env2 (runMode env1 s (.select top bottom)).1
        (.select top bottom)).1.isComposite = true ∧
    countEvent Event.remoteAttempt
      (runMode env2 (runMode env1 s (.select top bottom)).1 (.select top bottom)).2 = 0 := by
  have hlk := run_composite_cached env1 s top bottom u hif himg hcomp
  have hif1 := run_not_inflight (.select top bottom) env1 s hif
  refine ⟨hlk, ?_, ?_, ?_⟩ <;>
    · rw [run_cache_hit (.select top bottom) env2 _ ⟨u, true⟩ hif1 hlk]
      try simp [countEvent]

/-- Environment where the remote generation always fails with a
non-quota error but the local composite fallback succeeds. -/
def envCompOk : Env :=
  { envOk with remote := fun _ => .failure serverError
               createComposite := fun _ _ => ⟨true, some "composite://img", none⟩ }

/-- Witness for C8 at a concrete failing-AI environment. -/
theorem composite_fallback_cached_witness :
    lookupA (outfitHookKey ⟨"t1", "top.png"⟩ ⟨"b1", "bot.png"⟩)
        (runMode envCompOk initHookState
          (.select ⟨"t1", "top.png"⟩ ⟨"b1", "bot.png"⟩)).1.cache =
      some ⟨"composite://img", true⟩ ∧
    (runMode envCompOk (runMode envCompOk initHookState
        (.select ⟨"t1", "top.png"⟩ ⟨"b1", "bot.png"⟩)).1
        (.select ⟨"t1", "top.png"⟩ ⟨"b1", "bot.png"⟩)).1.generatedImage =
      some "composite://img" ∧
    (runMode envCompOk (runMode envCompOk initHookState
        (.select ⟨"t1", "top.png"⟩ ⟨"b1", "bot.png"⟩)).1
        (.select ⟨"t1", "top.png"⟩ ⟨"b1", "bot.png"⟩)).1.isComposite = true ∧
    countEvent Event.remoteAttempt
      (runMode envCompOk (runMode envCompOk initHookState
        (.select ⟨"t1", "top.png"⟩ ⟨"b1", "bot.png"⟩)).1
        (.select ⟨"t1", "top.png"⟩ ⟨"b1", "bot.png"⟩)).2 = 0 :=
  composite_fallback_cached envCompOk envCompOk initHookState
    ⟨"t1", "top.png"⟩ ⟨"b1", "bot.png"⟩ "composite://img" rfl (by decide) (by decide)

/-- With truthy identifiers and a truthy durable hit, the select internal
returns the stored URL immediately: one durable lookup, no fetch, no
remote attempt, caches untouched. -/
theorem generateOutfitInternal_durable_hit (env : Env) (st : GenState)
    (tp bp yp t b u : String) (hkey : env.apiKey = true)
    (ht : t ≠ "") (hb : b ≠ "")
    (hdur : env.getCachedComposite t b = some u) (hu : u ≠ "") :
    generateOutfitInternal env st tp bp yp (some t) (some b) =
      (st, .ok ⟨true, some u, none⟩, [Event.durableLookup]) := by
  simp [generateOutfitInternal, hkey, idsOf, ht, hb, hdur, hu]

/-- Claim C3: when the durable composite lookup for the known pair
(t, b) returns a stored URL u, the call returns `{success, imageUrl u}`
without any remote attempt; the session memory tier is then populated
under the pair-derived key, so a repeated call performs no durable
lookup and returns u again. -/
theorem durable_hit_select (env1 env2 : Env) (s : HookState)
    (top bottom : ClothingItem) (u : String)
    (hif : s.inFlight = false)
    (hmiss : lookupA (outfitHookKey top bottom) s.cache = none)
    (hallow : env1.rate.allowed = true)
    (hkey : env1.apiKey = true)
    (ht : top.id ≠ "") (hb : bottom.id ≠ "")
    (hdur : env1.getCachedComposite top.id bottom.id = some u)
    (hu : u ≠ "") :
    generateOutfitInternal env1 s.gen top.imageUrl bottom.imageUrl DEFAULT_BODY_PATH
        (some top.id) (some bottom.id) =
      (s.gen, .ok ⟨true, some u, none⟩, [Event.durableLookup]) ∧
    (runMode env1 s (.select top bottom)).1.generatedImage = some u ∧
    (runMode env1 s (.select top bottom)).1.error = none ∧
    countEvent Event.remoteAttempt (runMode env1 s (.select top bottom)).2 = 0 ∧
    lookupA (outfitHookKey top bottom)
        (runMode env1 s (.select top bottom)).1.cache = some ⟨u, false⟩ ∧
    countEvent Event.durableLookup
      (runMode env2 (runMode env1 s (.select top bottom)).1 (.select top bottom)).2 = 0 ∧
    (runMode env2 (runMode env1 s (.select top bottom)).1
        (.select top bottom)).1.generatedImage = some u := by
  have hint := generateOutfitInternal_durable_hit env1 s.gen top.imageUrl bottom.imageUrl
    DEFAULT_BODY_PATH top.id bottom.id u hkey ht hb hdur hu
  refine ⟨hint, ?_, ?_, ?_, ?_, ?_, ?_⟩
  · simp [runMode, Hook.generateOutfit, hif, hmiss, hallow, hint, hu]
  · simp [runMode, Hook.generateOutfit, hif, hmiss, hallow, hint, hu]
  · simp [runMode, Hook.generateOutfit, hif, hmiss, hallow, hint, hu, countEvent]
  · simp [runMode, Hook.generateOutfit, hif, hmiss, hallow, hint, hu, lookupA]
  · have hlk : lookupA (keyOf (.select top bottom))
        (runMode env1 s (.select top bottom)).1.cache = some ⟨u, false⟩ := by
      simp [runMode, keyOf, Hook.generateOutfit, hif, hmiss, hallow, hint, hu, lookupA]
    have hif1 := run_not_inflight (.select top bottom) env1 s hif
    rw [run_cache_hit (.select top bottom) env2 _ ⟨u, false⟩ hif1 hlk]
    simp [countEvent]
  · have hlk : lookupA (keyOf (.select top bottom))
        (runMode env1 s (.select top bottom)).1.cache = some ⟨u, false⟩ := by
      simp [runMode, keyOf, Hook.generateOutfit, hif, hmiss, hallow, hint, hu, lookupA]
    have hif1 := run_not_inflight (.select top bottom) env1 s hif
    rw [run_cache_hit (.select top bottom) env2 _ ⟨u, false⟩ hif1 hlk]

/-- Environment where the durable composite lookup already holds a URL
for the pair (t1, b1). -/
def envDurable : Env :=
  { envOk with
      getCachedComposite := fun t b =>
        if t = "t1" ∧ b = "b1" then some "https://x/img.png" else none
      remote := fun _ => .failure serverError }

/-- Witness for C3 at the spec's concrete scenario: pair (t1, b1) with
stored URL `https://x/img.png`; note the remote oracle of this
environment always fails, so the returned URL can only come from the
durable tier. -/
theorem durable_hit_select_witness :
    generateOutfitInternal envDurable initGenState "top.png" "bot.png" DEFAULT_BODY_PATH
        (some "t1") (some "b1") =
      (initGenState, .ok ⟨true, some "https://x/img.png", none⟩, [Event.durableLookup]) ∧
    (runMode envDurable initHookState
        (.select ⟨"t1", "top.png"⟩ ⟨"b1", "bot.png"⟩)).1.generatedImage =
      some "https://x/img.png" ∧
    countEvent Event.durableLookup
      (runMode envDurable (runMode envDurable initHookState
          (.select ⟨"t1", "top.png"⟩ ⟨"b1", "bot.png"⟩)).1
        (.select ⟨"t1", "top.png"⟩ ⟨"b1", "bot.png"⟩)).2 = 0 := by
  have h := durable_hit_select envDurable envDurable initHookState
    ⟨"t1", "top.png"⟩ ⟨"b1", "bot.png"⟩ "https://x/img.png" rfl rfl rfl rfl
    (by decide) (by decide) (by decide) (by decide)
  exact ⟨h.1, h.2.1, h.2.2.2.2.2.1⟩

/-- A generated data URL always passes the `startsWith "data:"` test. -/
theorem strStartsWith_data (d : String) :
    strStartsWith ("data:image/png;base64," ++ d) "data:" = true := by
  have h0 : ("data:image/png;base64," : String) = "data:" ++ "image/png;base64," := rfl
  rw [h0, String.append_assoc]
  simp [strStartsWith, String.toList, String.data_append, List.isPrefixOf_iff_prefix]

/-- A generated data URL is never the empty string. -/
theorem dataUrl_ne_empty (d : String) : ("data:image/png;base64," ++ d) ≠ "" := by
  intro hcon
  have := congrArg String.length hcon
  simp [String.length_append] at this
  exact absurd this.1 (by decide)

/-- When every blob upload fails, the select internal's persistence block
falls back to the transient data URL after the upload attempt. -/
theorem trySaveComposite_upload_fail (env : Env) (t b du em : String)
    (hup : ∀ fn du2, env.uploadImage fn du2 = .error em) :
    trySaveComposite env t b du = (⟨true, some du, none⟩, [Event.blobUpload]) := by
  simp [trySaveComposite, hup]

/-- When every blob upload fails, `persistAndPublish` on a data URL
escapes to the catch state after the upload attempt. -/
theorem persistAndPublish_upload_fail (env : Env) (s3 : HookState)
    (key fp src fm u em : String)
    (hstart : strStartsWith u "data:" = true)
    (hup : ∀ fn du, env.uploadImage fn du = .error em) :
    Hook.persistAndPublish env s3 key fp src fm u =
      (catchFailState s3 fm, [Event.blobUpload]) := by
  simp [Hook.persistAndPublish, hstart, hup]

/-- Fresh select generation (all caches miss) with a first-call remote
success and failing blob uploads: the data URL is produced, memo-cached,
and returned as a success despite the persistence failure. -/
theorem internal_select_fresh (env : Env) (st : GenState) (tp bp yp t b : String)
    (fb : String → String) (resp : Response) (pt : ContentPart) (d em : String)
    (hkey : env.apiKey = true) (ht : t ≠ "") (hb : b ≠ "")
    (hdur : env.getCachedComposite t b = none)
    (hwc : lookupA (cacheKeyFor tp bp yp buildPrompt) st.outfitCache = none)
    (hfetch : ∀ p, env.fetchB64 p = .ok (fb p))
    (hrem : env.remote 0 = .success resp)
    (hfind : (respParts resp).find? partHasData = some pt)
    (hdata : pt.inlineData = some d) (hd : d ≠ "")
    (hup : ∀ fn du, env.uploadImage fn du = .error em) :
    generateOutfitInternal env st tp bp yp (some t) (some b) =
      ({st with outfitCache := (cacheKeyFor tp bp yp buildPrompt,
          "data:image/png;base64," ++ d) :: st.outfitCache},
       .ok ⟨true, some ("data:image/png;base64," ++ d), none⟩,
       [Event.durableLookup, Event.remoteAttempt, Event.blobUpload]) := by
  have hrr : runRetryLoop env.remote = .ok resp 1 [] := by
    simp [runRetryLoop, retryStep, hrem]
  simp [generateOutfitInternal, selectAfterDurable, idsOf, hkey, ht, hb, hdur, hwc,
    hfetch, hrr, hfind, hdata, hd, trySaveComposite, hup, List.replicate]

/-- Fresh nano generation with a first-call remote success: the data URL
is produced and memo-cached. -/
theorem internal_nano_fresh (env : Env) (st : GenState) (yp cp : String)
    (fb : String → String) (resp : Response) (pt : ContentPart) (d : String)
    (hkey : env.apiKey = true)
    (hwc : lookupA (nanoKey yp cp) st.nanoCache = none)
    (hfetch : ∀ p, env.fetchB64 p = .ok (fb p))
    (hrem : env.remote 0 = .success resp)
    (hfind : (respParts resp).find? partHasData = some pt)
    (hdata : pt.inlineData = some d) (hd : d ≠ "") :
    generateNanoOutfitInternal env st yp cp =
      ({st with nanoCache := (nanoKey yp cp,
          "data:image/png;base64," ++ d) :: st.nanoCache},
       .ok ⟨true, some ("data:image/png;base64," ++ d), none⟩,
       [Event.remoteAttempt]) := by
  have hrr : runRetryLoop env.remote = .ok resp 1 [] := by
    simp [runRetryLoop, retryStep, hrem]
  simp [generateNanoOutfitInternal, hkey, hwc, hfetch, hrr, hfind, hdata, hd,
    List.replicate]

/-- Fresh transfer generation with a first-call remote success. -/
theorem internal_transfer_fresh (env : Env) (st : GenState) (ip yp : String)
    (fb : String → String) (resp : Response) (pt : ContentPart) (d : String)
    (hkey : env.apiKey = true)
    (hwc : lookupA (transferKey ip yp) st.transferCache = none)
    (hfetch : ∀ p, env.fetchB64 p = .ok (fb p))
    (hrem : env.remote 0 = .success resp)
    (hfind : (respParts resp).find? partHasData = some pt)
    (hdata : pt.inlineData = some d) (hd : d ≠ "") :
    generateOutfitTransferInternal env st ip yp =
      ({st with transferCache := (transferKey ip yp,
          "data:image/png;base64," ++ d) :: st.transferCache},
       .ok ⟨true, some ("data:image/png;base64," ++ d), none⟩,
       [Event.remoteAttempt]) := by
  have hrr : runRetryLoop env.remote = .ok resp 1 [] := by
    simp [runRetryLoop, retryStep, hrem]
  simp [generateOutfitTransferInternal, hkey, hwc, hfetch, hrr, hfind, hdata, hd,
    List.replicate]

/-- Claim C2 as amended: after a successful remote generation with every
blob upload failing, the paired-selection mode still returns success with
the transient data URL and no visible error (the persistence failure is
only logged), but the nano and transfer modes surface the persistence
failure as a visible error with a null generated image. -/
theorem persistence_failure_amended (env : Env) (s : HookState)
    (top bottom : ClothingItem) (occ : String) (f : FileInfo)
    (fb : String → String) (resp : Response) (pt : ContentPart) (d em : String)
    (hif : s.inFlight = false)
    (hallow : env.rate.allowed = true)
    (hkey : env.apiKey = true)
    (hfetch : ∀ p, env.fetchB64 p = .ok (fb p))
    (hrem : env.remote 0 = .success resp)
    (hfind : (respParts resp).find? partHasData = some pt)
    (hdata : pt.inlineData = some d) (hd : d ≠ "")
    (hup : ∀ fn du, env.uploadImage fn du = .error em)
    (hm1 : lookupA (outfitHookKey top bottom) s.cache = none)
    (hm2 : lookupA (nanoHookKey occ) s.cache = none)
    (hm3 : lookupA (transferHookKey f) s.cache = none)
    (hw1 : lookupA (cacheKeyFor top.imageUrl bottom.imageUrl DEFAULT_BODY_PATH buildPrompt)
      s.gen.outfitCache = none)
    (hw2 : lookupA (nanoKey DEFAULT_BODY_PATH (nanoCustomPrompt occ)) s.gen.nanoCache = none)
    (hw3 : lookupA (transferKey env.objectUrl DEFAULT_BODY_PATH) s.gen.transferCache = none)
    (ht : top.id ≠ "") (hb : bottom.id ≠ "")
    (hdur : env.getCachedComposite top.id bottom.id = none) :
    ((runMode env s (.select top bottom)).1.generatedImage =
       some ("data:image/png;base64," ++ d) ∧
     (runMode env s (.select top bottom)).1.error = none) ∧
    ((runMode env s (.nano occ)).1.generatedImage = none ∧
     (runMode env s (.nano occ)).1.error =
       some "Failed to generate nano outfit. Please try again.") ∧
    ((runMode env s (.transfer f)).1.generatedImage = none ∧
     (runMode env s (.transfer f)).1.error =
       some "Failed to transfer outfit. Please try again.") := by
  have hsel := internal_select_fresh env s.gen top.imageUrl bottom.imageUrl
    DEFAULT_BODY_PATH top.id bottom.id fb resp pt d em hkey ht hb hdur hw1 hfetch
    hrem hfind hdata hd hup
  have hnano := internal_nano_fresh env s.gen DEFAULT_BODY_PATH (nanoCustomPrompt occ)
    fb resp pt d hkey hw2 hfetch hrem hfind hdata hd
  have htr := internal_transfer_fresh env s.gen env.objectUrl DEFAULT_BODY_PATH
    fb resp pt d hkey hw3 hfetch hrem hfind hdata hd
  have hpp : ∀ s3 key fp src fm,
      Hook.persistAndPublish env s3 key fp src fm ("data:image/png;base64," ++ d) =
        (catchFailState s3 fm, [Event.blobUpload]) :=
    fun s3 key fp src fm =>
      persistAndPublish_upload_fail env s3 key fp src fm _ em (strStartsWith_data d) hup
  refine ⟨⟨?_, ?_⟩, ⟨?_, ?_⟩, ⟨?_, ?_⟩⟩
  · simp [runMode, Hook.generateOutfit, hif, hm1, hallow, hsel, dataUrl_ne_empty]
  · simp [runMode, Hook.generateOutfit, hif, hm1, hallow, hsel, dataUrl_ne_empty]
  · simp [runMode, Hook.generateNanoOutfit, hif, hm2, hallow, hnano, dataUrl_ne_empty,
      hpp, catchFailState]
  · simp [runMode, Hook.generateNanoOutfit, hif, hm2, hallow, hnano, dataUrl_ne_empty,
      hpp, catchFailState]
  · simp [runMode, Hook.generateOutfitTransfer, hif, hm3, hallow, htr, dataUrl_ne_empty,
      hpp, catchFailState]
  · simp [runMode, Hook.generateOutfitTransfer, hif, hm3, hallow, htr, dataUrl_ne_empty,
      hpp, catchFailState]

/-- Environment where remote generation succeeds but every blob upload
fails. -/
def envPersistFail : Env :=
  { envOk with uploadImage := fun _ _ => .error "storage denied" }

/-- Counterexample to claim C2: under `envPersistFail` the nano remote
generation succeeds (the internal returns the transient data URL as a
success), yet the nano operation surfaces a visible error with a null
generated image instead of returning that transient URL — the
persistence failure is not merely logged for this mode. -/
theorem persistence_failure_visible_nano :
    (generateNanoOutfitInternal envPersistFail initGenState DEFAULT_BODY_PATH
        (nanoCustomPrompt "gala")).2.1 =
      Except.ok ⟨true, some "data:image/png;base64,IMGA", none⟩ ∧
    (runMode envPersistFail initHookState (.nano "gala")).1.generatedImage = none ∧
    (runMode envPersistFail initHookState (.nano "gala")).1.error =
      some "Failed to generate nano outfit. Please try again." := by
  refine ⟨rfl, by decide, by decide⟩

/-- Witness for the amended C2 under the concrete failing-upload
environment. -/
theorem persistence_failure_amended_witness :
    ((runMode envPersistFail initHookState
        (.select ⟨"t1", "top.png"⟩ ⟨"b1", "bot.png"⟩)).1.generatedImage =
      some ("data:image/png;base64," ++ "IMGA") ∧
     (runMode envPersistFail initHookState
        (.select ⟨"t1", "top.png"⟩ ⟨"b1", "bot.png"⟩)).1.error = none) ∧
    ((runMode envPersistFail initHookState (.nano "gala")).1.generatedImage = none ∧
     (runMode envPersistFail initHookState (.nano "gala")).1.error =
       some "Failed to generate nano outfit. Please try again.") ∧
    ((runMode envPersistFail initHookState (.transfer ⟨"insp.png", 7⟩)).1.generatedImage =
       none ∧
     (runMode envPersistFail initHookState (.transfer ⟨"insp.png", 7⟩)).1.error =
       some "Failed to transfer outfit. Please try again.") :=
  persistence_failure_amended envPersistFail initHookState
    ⟨"t1", "top.png"⟩ ⟨"b1", "bot.png"⟩ "gala" ⟨"insp.png", 7⟩
    (fun _ => "BODY64") ⟨[⟨[⟨some "IMGA", none⟩]⟩]⟩ ⟨some "IMGA", none⟩ "IMGA"
    "storage denied" rfl rfl rfl (fun _ => rfl) rfl (by decide) rfl (by decide)
    (fun _ _ => rfl) rfl rfl rfl rfl rfl rfl (by decide) (by decide) rfl
